import Mathlib

/-!
# Verification of `sphinx_needs/builder.py`

Shallow embedding of the output builders of sphinx-needs:
`NeedsBuilderBase`, `NeedsBuilder`, `NeedumlsBuilder`, `NeedsIdBuilder`
and the post-build hooks `build_needs_json`, `build_needumls_pumls`,
`build_needs_id_json`.

External collaborators (`NeedsList` from `sphinx_needs.needsfile`, the
filter evaluator `filter_needs` from `sphinx_needs.filter_common`, the
logger, and the file system) are not part of the excerpt; they are
modelled from the specification, with file-system outcomes (write
success/failure, directory existence) passed in as parameters.
-/

set_option autoImplicit false

/-- A need record: a mapping with at least a unique `id` string plus arbitrary
additional descriptive fields (treated as opaque key/value data here). -/
structure Need where
  id : String
  fields : List (String × String)
deriving Repr, DecidableEq

/-- A filter record as stored in the registry: a named filter expression and
an `export_id` string, truthy (non-empty) when the filter is tagged for
export (the code tests `if need_filter["export_id"]:`). -/
structure NeedFilter where
  name : String
  filter_string : String
  export_id : String
deriving Repr, DecidableEq

/-- A diagram (`needuml`) record: an optional `save` path (relative to the
output folder; Python-falsy when `None` or empty) and pre-rendered
`content_calculated` text. -/
structure NeedUml where
  save : Option String
  content_calculated : String
deriving Repr, DecidableEq

/-- A log line emitted through `log.info` / `log.error`. -/
inductive LogEntry where
  | info (msg : String)
  | error (msg : String)
deriving Repr, DecidableEq

/-- Modelled from the spec: the filter evaluator `filter_needs` of
`sphinx_needs.filter_common` is not in the excerpt.  The spec describes it as
"a function taking (configuration, collection of needs, filter expression)
and returning the filtered subset".  Configuration and filter expression are
abstracted into the predicate `p` the expression denotes; the evaluator
returns the sub-list of needs satisfying it, in input order. -/
def filter_needs (p : Need → Bool) (needs : List Need) : List Need :=
  needs.filter p

/-- One version's entry in the needs file: the need records valid for that
version plus any exported filter definitions. -/
structure VersionEntry where
  needs : List Need
  filters : List NeedFilter
deriving Repr, DecidableEq

/-- Modelled from the spec: the in-memory state of a `NeedsList`
(`sphinx_needs.needsfile`, not in the excerpt): "an on-disk JSON document
keyed by version, each version mapping to the need records valid for that
version plus any exported filters".  Represented as an association list from
version label to entry, mirroring a JSON object (insertion-ordered keys). -/
abbrev NeedsJson := List (String × VersionEntry)

/-- Look up a version's entry; a missing version reads as the empty entry. -/
def getVersion (s : NeedsJson) (v : String) : VersionEntry :=
  match s with
  | [] => ⟨[], []⟩
  | (k, e) :: rest => if k = v then e else getVersion rest v

/-- Modelled from the spec: `NeedsList.wipe_version` "removes ('wipes') any
prior entries for that same version". -/
def wipe_version (s : NeedsJson) (v : String) : NeedsJson :=
  match s with
  | [] => []
  | (k, e) :: rest =>
    if k = v then wipe_version rest v else (k, e) :: wipe_version rest v

/-- Modelled from the spec: `NeedsList.add_need` appends a need record to the
version's entry, creating the entry if the version is not yet present. -/
def add_need (s : NeedsJson) (v : String) (n : Need) : NeedsJson :=
  match s with
  | [] => [(v, ⟨[n], []⟩)]
  | (k, e) :: rest =>
    if k = v then (k, { e with needs := e.needs ++ [n] }) :: rest
    else (k, e) :: add_need rest v n

/-- Modelled from the spec: `NeedsList.add_filter` "attaches that filter's
definition to the current version's entry", creating the entry if absent. -/
def add_filter (s : NeedsJson) (v : String) (f : NeedFilter) : NeedsJson :=
  match s with
  | [] => [(v, ⟨[], [f]⟩)]
  | (k, e) :: rest =>
    if k = v then (k, { e with filters := e.filters ++ [f] }) :: rest
    else (k, e) :: add_filter rest v f

/-- The needs-file state `NeedsBuilder.finish` builds before the final
`write_json` call (builder.py lines 98-131): wipe the current version from
the base state, append every need surviving the builder filter, then attach
every filter record whose `export_id` is truthy. -/
def NeedsBuilder_finishState (p : Need → Bool) (filters : List NeedFilter)
    (version : String) (base : NeedsJson) (needs : List Need) : NeedsJson :=
  let s1 := wipe_version base version
  let s2 := (filter_needs p needs).foldl (fun st n => add_need st version n) s1
  (filters.filter (fun f => f.export_id ≠ "")).foldl
    (fun st f => add_filter st version f) s2

/-- The observable outcome of `NeedsBuilder.finish`: the file content handed
to `write_json` when the write succeeded (`none` when it raised), and the
log lines emitted. -/
structure NeedsBuilderOutput where
  file : Option NeedsJson
  logs : List LogEntry
deriving Repr, DecidableEq

/-- Embeds `NeedsBuilder.finish` (builder.py lines 98-137).  `cfgFile` is the state
loaded by `load_json` when `needs_config.file` is set (`none` when not
configured, in which case the base state is empty);
`srcdirNeedsJsonFound` is `os.path.exists` on `<srcdir>/needs.json`;
`writeErr` is the exception message raised by `needs_list.write_json`
(`none` when the write succeeds). -/
def NeedsBuilder_finish (p : Need → Bool) (filters : List NeedFilter)
    (version : String) (cfgFile : Option NeedsJson)
    (srcdirNeedsJsonFound : Bool) (needs : List Need)
    (writeErr : Option String) : NeedsBuilderOutput :=
  let preLogs : List LogEntry :=
    match cfgFile with
    | some _ => []
    | none =>
      if srcdirNeedsJsonFound then
        [.info "needs.json found, but will not be used because needs_file not configured."]
      else []
  let state := NeedsBuilder_finishState p filters version (cfgFile.getD []) needs
  match writeErr with
  | some e => ⟨none, preLogs ++ [.error ("Error during writing json file: " ++ e)]⟩
  | none => ⟨some state, preLogs ++ [.info "Needs successfully exported"]⟩

example :
    getVersion (NeedsBuilder_finishState (fun _ => true) [] "1.0"
      [("1.0", ⟨[⟨"OLD", []⟩], []⟩)] [⟨"R1", []⟩, ⟨"R2", []⟩]) "1.0"
    = ⟨[⟨"R1", []⟩, ⟨"R2", []⟩], []⟩ := by decide

example :
    getVersion (NeedsBuilder_finishState (fun n => n.id = "R1") [] "1.0"
      [] [⟨"R1", []⟩, ⟨"R2", []⟩]) "1.0"
    = ⟨[⟨"R1", []⟩], []⟩ := by decide

/-! ## The per-need exporter `NeedsIdBuilder` -/

/-- Models `os.path.join` for the relative paths used here: the second component is
always a configured sub-path or file name, never absolute. -/
def joinPath (a b : String) : String := a ++ "/" ++ b

/-- Characters strictly before the last `'/'` of the list (empty when no
separator occurs). -/
def dirnameChars : List Char → List Char
  | [] => []
  | c :: cs => if cs.contains '/' then c :: dirnameChars cs else []

/-- Models `os.path.dirname`: everything strictly before the last path separator
(the paths handled here always contain one and are relative). -/
def dirname (p : String) : String :=
  ⟨dirnameChars p.data⟩

/-- A single JSON file written by `NeedsList.write_json(file_name, needs_dir)`. -/
structure FileWrite where
  dir : String
  name : String
  content : NeedsJson
deriving Repr, DecidableEq

/-- The observable outcome of `NeedsIdBuilder.finish`: whether the per-id
output directory had to be created, the files written, and the log lines. -/
structure NeedsIdOutput where
  madeDir : Bool
  files : List FileWrite
  logs : List LogEntry
deriving Repr, DecidableEq

/-- The single-entry state `NeedsIdBuilder.finish` builds for one need: a
fresh `NeedsList`, current version wiped (a no-op on the fresh state), then
the one need appended. -/
def needsIdState (version : String) (need : Need) : NeedsJson :=
  add_need (wipe_version ([] : NeedsJson) version) version need

/-- Processing of one filtered need inside `NeedsIdBuilder.finish`'s loop
(builder.py lines 229-238): attempt the write; on an exception, log the
per-need error and continue. -/
def needsIdStep (version needs_dir : String) (writeErr : Need → Option String)
    (acc : NeedsIdOutput) (need : Need) : NeedsIdOutput :=
  match writeErr need with
  | some e =>
    { acc with logs := acc.logs ++ [.error ("Needs-ID Builder " ++ need.id ++ " error: " ++ e)] }
  | none =>
    { acc with files := acc.files ++ [⟨needs_dir, need.id ++ ".json", needsIdState version need⟩] }

/-- Embeds `NeedsIdBuilder.finish` (builder.py lines 217-239).  `dirFound` is
`os.path.exists` on the per-id output directory; `writeErr need` is the
exception message raised by `write_json` for that need's file (`none` when
that write succeeds). -/
def NeedsIdBuilder_finish (p : Need → Bool) (version outdir subdir : String)
    (dirFound : Bool) (needs : List Need)
    (writeErr : Need → Option String) : NeedsIdOutput :=
  let filtered := filter_needs p needs
  let needs_dir := joinPath outdir subdir
  let r := filtered.foldl (needsIdStep version needs_dir writeErr) ⟨!dirFound, [], []⟩
  { r with logs := r.logs ++ [.info "Needs_id successfully exported"] }

example :
    (NeedsIdBuilder_finish (fun _ => true) "1.0" "out" "per_id" true
      [⟨"R1", []⟩] (fun _ => none)).files
    = [⟨"out/per_id", "R1.json", [("1.0", ⟨[⟨"R1", []⟩], []⟩)]⟩] := by decide

/-! ## The diagram exporter `NeedumlsBuilder` -/

/-- A file-system effect of `NeedumlsBuilder.finish`. -/
inductive FsAction where
  | mkdirs (path : String)
  | write (path : String) (content : String)
deriving Repr, DecidableEq

/-- Python truthiness of the `save` field (`if needuml["save"]:`): falsy when
the field is `None` or the empty string. -/
def truthySave (s : Option String) : Bool :=
  match s with
  | none => false
  | some s => s ≠ ""

/-- Effects and logs contributed by one diagram record in
`NeedumlsBuilder.finish`'s loop (builder.py lines 171-182): when `save` is
truthy, create the destination directory if it does not exist, log the
destination, and write `content_calculated` verbatim; otherwise nothing. -/
def umlStep (outdir : String) (dirFound : String → Bool) (u : NeedUml) :
    List FsAction × List LogEntry :=
  match u.save with
  | none => ([], [])
  | some s =>
    if s ≠ "" then
      let save_path := joinPath outdir s
      let save_dir := dirname save_path
      ((if dirFound save_dir then [] else [.mkdirs save_dir]) ++
        [.write save_path u.content_calculated],
       [.info ("Storing needuml data to file " ++ save_path ++ ".")])
    else ([], [])

/-- Embeds `NeedumlsBuilder.finish` (builder.py lines 168-182), as the file-system
effects performed and log lines emitted, in order.  `dirFound` is
`os.path.exists` on directories. -/
def NeedumlsBuilder_finish (outdir : String) (dirFound : String → Bool)
    (umls : List NeedUml) : List FsAction × List LogEntry :=
  umls.foldl
    (fun acc u => (acc.1 ++ (umlStep outdir dirFound u).1, acc.2 ++ (umlStep outdir dirFound u).2))
    ([], [])

example :
    (NeedumlsBuilder_finish "out" (fun _ => false)
      [⟨some "sub/dir/out.puml", "@startuml"⟩, ⟨none, "ignored"⟩]).1
    = [.mkdirs "out/sub/dir", .write "out/sub/dir/out.puml" "@startuml"] := by
  decide

/-! ## Builder base class and write phase -/

/-- The host build environment as far as the builder base reads it:
`self.env.found_docs`, the set of all documents found in the project. -/
structure BuildEnv where
  found_docs : List String
deriving Repr, DecidableEq

/-- Embeds `NeedsBuilderBase.get_outdated_docs` (builder.py lines 38-39): returns
`self.env.found_docs`, i.e. reports every found document as outdated. -/
def get_outdated_docs (env : BuildEnv) : List String :=
  env.found_docs

/-- Embeds `NeedsBuilderBase.get_target_uri` (builder.py lines 41-42). -/
def get_target_uri (_env : BuildEnv) (_docname : String) : String := ""

/-- Embeds `NeedsBuilderBase.skip_write_phase` (builder.py line 36): the
base-class default. -/
def NeedsBuilderBase.skip_write_phase : Bool := true

/-- Embeds `NeedsBuilder.skip_write_phase` (builder.py line 96): the JSON
needs exporter overrides the default. -/
def NeedsBuilder.skip_write_phase : Bool := false

/-- Class `NeedumlsBuilder` declares no `skip_write_phase`, inheriting the
base default. -/
def NeedumlsBuilder.skip_write_phase : Bool := NeedsBuilderBase.skip_write_phase

/-- Class `NeedsIdBuilder` declares no `skip_write_phase`, inheriting the
base default. -/
def NeedsIdBuilder.skip_write_phase : Bool := NeedsBuilderBase.skip_write_phase

/-- What `NeedsBuilderBase.write` (builder.py lines 44-52) does: return
immediately, or delegate to the host's full per-document write phase
(`super().write(...)`). -/
inductive WriteBehavior where
  | skipped
  | delegatedToHost
deriving Repr, DecidableEq

/-- Embeds `NeedsBuilderBase.write`: a no-op when `skip_write_phase` is set, else a
delegation to the host `Builder.write`. -/
def builderWrite (skipFlag : Bool) : WriteBehavior :=
  if skipFlag then .skipped else .delegatedToHost

/-! ## Post-build hooks -/

/-- The effect of a post-build hook: do nothing, or construct the secondary
builder (via either host construction signature) and invoke its `finish`. -/
inductive HookEffect where
  | noop
  | runNeedsFinish
  | runNeedsIdFinish
  | runNeedumlsFinish (outSubdir : String)
deriving Repr, DecidableEq

/-- Embeds `build_needs_json` (builder.py lines 140-156): `build_json` is the
`needs_build_json` config flag; `builderIsNeeds` is
`isinstance(app.builder, NeedsBuilder)`. -/
def build_needs_json (build_json : Bool) (builderIsNeeds : Bool) : HookEffect :=
  if !build_json then .noop
  else if builderIsNeeds then .noop
  else .runNeedsFinish

/-- Embeds `build_needs_id_json` (builder.py lines 242-257). -/
def build_needs_id_json (build_json_per_id : Bool) (builderIsNeedsId : Bool) :
    HookEffect :=
  if !build_json_per_id then .noop
  else if builderIsNeedsId then .noop
  else .runNeedsIdFinish

/-- Embeds `build_needumls_pumls` (builder.py lines 185-205): the enabling option
`needs_build_needumls` is a sub-folder path, Python-falsy when empty. -/
def build_needumls_pumls (build_needumls : String) (builderIsNeedumls : Bool) :
    HookEffect :=
  if build_needumls = "" then .noop
  else if builderIsNeedumls then .noop
  else .runNeedumlsFinish build_needumls

/-! ## Lemmas about the needs-file state -/

theorem getVersion_wipe_version (s : NeedsJson) (v : String) :
    getVersion (wipe_version s v) v = ⟨[], []⟩ := by
  induction s with
  | nil => rfl
  | cons kv rest ih =>
    obtain ⟨k, e⟩ := kv
    by_cases h : k = v <;> simp [wipe_version, getVersion, h, ih]

theorem getVersion_add_need (s : NeedsJson) (v : String) (n : Need) :
    getVersion (add_need s v n) v
      = ⟨(getVersion s v).needs ++ [n], (getVersion s v).filters⟩ := by
  induction s with
  | nil => simp [add_need, getVersion]
  | cons kv rest ih =>
    obtain ⟨k, e⟩ := kv
    by_cases h : k = v <;> simp [add_need, getVersion, h, ih]

theorem getVersion_add_filter (s : NeedsJson) (v : String) (f : NeedFilter) :
    getVersion (add_filter s v f) v
      = ⟨(getVersion s v).needs, (getVersion s v).filters ++ [f]⟩ := by
  induction s with
  | nil => simp [add_filter, getVersion]
  | cons kv rest ih =>
    obtain ⟨k, e⟩ := kv
    by_cases h : k = v <;> simp [add_filter, getVersion, h, ih]

theorem getVersion_foldl_add_need (v : String) (l : List Need) (s : NeedsJson) :
    getVersion (l.foldl (fun st n => add_need st v n) s) v
      = ⟨(getVersion s v).needs ++ l, (getVersion s v).filters⟩ := by
  induction l generalizing s with
  | nil => simp
  | cons n rest ih =>
    simp [List.foldl_cons, ih, getVersion_add_need]

theorem getVersion_foldl_add_filter (v : String) (l : List NeedFilter) (s : NeedsJson) :
    getVersion (l.foldl (fun st f => add_filter st v f) s) v
      = ⟨(getVersion s v).needs, (getVersion s v).filters ++ l⟩ := by
  induction l generalizing s with
  | nil => simp
  | cons f rest ih =>
    simp [List.foldl_cons, ih, getVersion_add_filter]

/-- The entry the JSON needs exporter leaves for the current version: exactly
the filtered needs, plus the filters tagged for export. -/
theorem getVersion_finishState (p : Need → Bool) (filters : List NeedFilter)
    (version : String) (base : NeedsJson) (needs : List Need) :
    getVersion (NeedsBuilder_finishState p filters version base needs) version
      = ⟨filter_needs p needs, filters.filter (fun f => f.export_id ≠ "")⟩ := by
  unfold NeedsBuilder_finishState
  simp [getVersion_foldl_add_filter, getVersion_foldl_add_need, getVersion_wipe_version]

/-! ## Claims about `NeedsBuilder.finish` -/

/-- C1: for every need set and builder filter, the need list written by the
JSON needs exporter's `finish` for the current version equals exactly the
subset accepted by the filter evaluator — no extras, no omissions — in the
order the evaluator returns it. -/
theorem needs_export_matches_filter (p : Need → Bool) (filters : List NeedFilter)
    (version : String) (cfgFile : Option NeedsJson) (found : Bool)
    (needs : List Need) :
    ∃ st, (NeedsBuilder_finish p filters version cfgFile found needs none).file = some st
      ∧ (getVersion st version).needs = filter_needs p needs := by
  refine ⟨NeedsBuilder_finishState p filters version (cfgFile.getD []) needs, ?_, ?_⟩
  · simp [NeedsBuilder_finish]
  · simp [getVersion_finishState]

/-- C2: whatever the base state (loaded from a prior needs file or empty),
after `finish` the entry for the current version holds only needs of the
current build — the version is wiped before appending, so a need removed
from the build never persists. -/
theorem no_stale_needs_for_version (p : Need → Bool) (filters : List NeedFilter)
    (version : String) (base : NeedsJson) (needs : List Need) (n : Need)
    (h : n ∈ (getVersion (NeedsBuilder_finishState p filters version base needs) version).needs) :
    n ∈ needs := by
  rw [getVersion_finishState] at h
  simp only [filter_needs] at h
  exact (List.mem_filter.mp h).1

theorem no_stale_needs_for_version_witness :
    (⟨"R1", []⟩ : Need) ∈ (getVersion (NeedsBuilder_finishState (fun _ => true) [] "1.0"
        [("1.0", ⟨[⟨"OLD", []⟩], []⟩)] [⟨"R1", []⟩]) "1.0").needs
    ∧ (⟨"R1", []⟩ : Need) ∈ [(⟨"R1", []⟩ : Need)] :=
  ⟨by decide,
   no_stale_needs_for_version (fun _ => true) [] "1.0"
     [("1.0", ⟨[⟨"OLD", []⟩], []⟩)] [⟨"R1", []⟩] ⟨"R1", []⟩ (by decide)⟩

/-- C4: exporting twice in succession with an unchanged need set, filter and
configuration — the second run taking the first run's output as its base
state — yields an identical entry for the current version both times. -/
theorem needs_export_idempotent_per_version (p : Need → Bool)
    (filters : List NeedFilter) (version : String) (base : NeedsJson)
    (needs : List Need) :
    getVersion (NeedsBuilder_finishState p filters version
        (NeedsBuilder_finishState p filters version base needs) needs) version
      = getVersion (NeedsBuilder_finishState p filters version base needs) version := by
  rw [getVersion_finishState, getVersion_finishState]

/-- C6: an exception from the final JSON write is caught by `finish` (the
embedding is a total function — nothing propagates to the caller), the last
log line is the error message and no file content is produced; on a
successful write the last log line is the informational success message. -/
theorem write_failure_logged_and_caught (p : Need → Bool)
    (filters : List NeedFilter) (version : String) (cfgFile : Option NeedsJson)
    (found : Bool) (needs : List Need) (e : String) :
    (NeedsBuilder_finish p filters version cfgFile found needs (some e)).file = none
    ∧ (NeedsBuilder_finish p filters version cfgFile found needs (some e)).logs.getLast?
        = some (.error ("Error during writing json file: " ++ e))
    ∧ (NeedsBuilder_finish p filters version cfgFile found needs none).logs.getLast?
        = some (.info "Needs successfully exported") := by
  refine ⟨rfl, ?_, ?_⟩ <;> simp [NeedsBuilder_finish]

/-! ## Claims about `NeedsIdBuilder.finish` -/

/-- The file `NeedsIdBuilder.finish` writes for one surviving need. -/
def needsIdFile (version needs_dir : String) (n : Need) : FileWrite :=
  ⟨needs_dir, n.id ++ ".json", needsIdState version n⟩

/-- The files successfully written for a list of filtered needs. -/
def needsIdWritten (version needs_dir : String) (writeErr : Need → Option String)
    (l : List Need) : List FileWrite :=
  l.filterMap (fun n =>
    match writeErr n with
    | some _ => none
    | none => some (needsIdFile version needs_dir n))

/-- The per-need error log lines for a list of filtered needs. -/
def needsIdErrors (writeErr : Need → Option String) (l : List Need) : List LogEntry :=
  l.filterMap (fun n =>
    match writeErr n with
    | some e => some (.error ("Needs-ID Builder " ++ n.id ++ " error: " ++ e))
    | none => none)

theorem needsId_foldl_files (version needs_dir : String)
    (writeErr : Need → Option String) (l : List Need) (acc : NeedsIdOutput) :
    (l.foldl (needsIdStep version needs_dir writeErr) acc).files
      = acc.files ++ needsIdWritten version needs_dir writeErr l := by
  induction l generalizing acc with
  | nil => simp [needsIdWritten]
  | cons n rest ih =>
    simp only [List.foldl_cons, ih, needsIdWritten, List.filterMap_cons]
    cases h : writeErr n <;>
      simp [needsIdStep, h, needsIdWritten, needsIdFile]

theorem needsId_foldl_logs (version needs_dir : String)
    (writeErr : Need → Option String) (l : List Need) (acc : NeedsIdOutput) :
    (l.foldl (needsIdStep version needs_dir writeErr) acc).logs
      = acc.logs ++ needsIdErrors writeErr l := by
  induction l generalizing acc with
  | nil => simp [needsIdErrors]
  | cons n rest ih =>
    simp only [List.foldl_cons, ih, needsIdErrors, List.filterMap_cons]
    cases h : writeErr n <;>
      simp [needsIdStep, h, needsIdErrors]

theorem NeedsIdBuilder_finish_files (p : Need → Bool) (version outdir subdir : String)
    (dirFound : Bool) (needs : List Need) (writeErr : Need → Option String) :
    (NeedsIdBuilder_finish p version outdir subdir dirFound needs writeErr).files
      = needsIdWritten version (joinPath outdir subdir) writeErr (filter_needs p needs) := by
  unfold NeedsIdBuilder_finish
  simp [needsId_foldl_files]

theorem NeedsIdBuilder_finish_logs (p : Need → Bool) (version outdir subdir : String)
    (dirFound : Bool) (needs : List Need) (writeErr : Need → Option String) :
    (NeedsIdBuilder_finish p version outdir subdir dirFound needs writeErr).logs
      = needsIdErrors writeErr (filter_needs p needs)
          ++ [.info "Needs_id successfully exported"] := by
  unfold NeedsIdBuilder_finish
  simp [needsId_foldl_logs]

/-- C5: for every need `R` surviving the configured filter (whose own write
raises no exception), the per-need exporter writes the file `R.id ++ ".json"`
in the per-id output directory, containing the single-entry state for the
current version with exactly `R` (current version wiped on a fresh state,
then `R` appended). -/
theorem per_need_file_written (p : Need → Bool) (version outdir subdir : String)
    (dirFound : Bool) (needs : List Need) (writeErr : Need → Option String)
    (R : Need) (hmem : R ∈ filter_needs p needs) (hok : writeErr R = none) :
    (⟨joinPath outdir subdir, R.id ++ ".json", [(version, ⟨[R], []⟩)]⟩ : FileWrite)
      ∈ (NeedsIdBuilder_finish p version outdir subdir dirFound needs writeErr).files := by
  rw [NeedsIdBuilder_finish_files]
  simp only [needsIdWritten]
  refine List.mem_filterMap.mpr ⟨R, hmem, ?_⟩
  simp [hok, needsIdFile, needsIdState, wipe_version, add_need]

theorem per_need_file_written_witness :
    (⟨"R1", []⟩ : Need) ∈ filter_needs (fun _ => true) [⟨"R1", []⟩, ⟨"R2", []⟩]
    ∧ (fun (_ : Need) => (none : Option String)) ⟨"R1", []⟩ = none
    ∧ (⟨"out/needs_id", "R1.json", [("1.0", ⟨[⟨"R1", []⟩], []⟩)]⟩ : FileWrite)
        ∈ (NeedsIdBuilder_finish (fun _ => true) "1.0" "out" "needs_id" true
            [⟨"R1", []⟩, ⟨"R2", []⟩] (fun _ => none)).files :=
  ⟨by decide, rfl,
   per_need_file_written (fun _ => true) "1.0" "out" "needs_id" true
     [⟨"R1", []⟩, ⟨"R2", []⟩] (fun _ => none) ⟨"R1", []⟩ (by decide) rfl⟩

/-- C7: a write failure for one need is caught and logged for that need
individually, and every other filtered need whose write succeeds still gets
its file — one failing need never blocks the others. -/
theorem per_need_failure_isolated (p : Need → Bool) (version outdir subdir : String)
    (dirFound : Bool) (needs : List Need) (writeErr : Need → Option String)
    (bad good : Need) (e : String)
    (hbad : bad ∈ filter_needs p needs) (hgood : good ∈ filter_needs p needs)
    (hfail : writeErr bad = some e) (hok : writeErr good = none) :
    (⟨joinPath outdir subdir, good.id ++ ".json", [(version, ⟨[good], []⟩)]⟩ : FileWrite)
      ∈ (NeedsIdBuilder_finish p version outdir subdir dirFound needs writeErr).files
    ∧ LogEntry.error ("Needs-ID Builder " ++ bad.id ++ " error: " ++ e)
      ∈ (NeedsIdBuilder_finish p version outdir subdir dirFound needs writeErr).logs := by
  constructor
  · rw [NeedsIdBuilder_finish_files]
    simp only [needsIdWritten]
    refine List.mem_filterMap.mpr ⟨good, hgood, ?_⟩
    simp [hok, needsIdFile, needsIdState, wipe_version, add_need]
  · rw [NeedsIdBuilder_finish_logs]
    simp only [needsIdErrors]
    refine List.mem_append_left _ (List.mem_filterMap.mpr ⟨bad, hbad, ?_⟩)
    simp [hfail]

theorem per_need_failure_isolated_witness :
    (⟨"BAD", []⟩ : Need) ∈ filter_needs (fun _ => true) [⟨"BAD", []⟩, ⟨"R1", []⟩]
    ∧ (⟨"R1", []⟩ : Need) ∈ filter_needs (fun _ => true) [⟨"BAD", []⟩, ⟨"R1", []⟩]
    ∧ (fun (n : Need) => if n.id = "BAD" then some "boom" else none) ⟨"BAD", []⟩ = some "boom"
    ∧ (fun (n : Need) => if n.id = "BAD" then some "boom" else none) ⟨"R1", []⟩ = none
    ∧ ((⟨"out/needs_id", "R1.json", [("1.0", ⟨[⟨"R1", []⟩], []⟩)]⟩ : FileWrite)
        ∈ (NeedsIdBuilder_finish (fun _ => true) "1.0" "out" "needs_id" true
            [⟨"BAD", []⟩, ⟨"R1", []⟩]
            (fun n => if n.id = "BAD" then some "boom" else none)).files
      ∧ LogEntry.error ("Needs-ID Builder " ++ "BAD" ++ " error: " ++ "boom")
        ∈ (NeedsIdBuilder_finish (fun _ => true) "1.0" "out" "needs_id" true
            [⟨"BAD", []⟩, ⟨"R1", []⟩]
            (fun n => if n.id = "BAD" then some "boom" else none)).logs) :=
  ⟨by decide, by decide, by decide, by decide,
   per_need_failure_isolated (fun _ => true) "1.0" "out" "needs_id" true
     [⟨"BAD", []⟩, ⟨"R1", []⟩]
     (fun n => if n.id = "BAD" then some "boom" else none)
     ⟨"BAD", []⟩ ⟨"R1", []⟩ "boom" (by decide) (by decide) (by decide) (by decide)⟩

/-! ## Claims about `NeedumlsBuilder.finish` -/

theorem needumls_foldl_append (outdir : String) (dirFound : String → Bool)
    (umls : List NeedUml) (acc : List FsAction × List LogEntry) :
    umls.foldl
        (fun acc u =>
          (acc.1 ++ (umlStep outdir dirFound u).1, acc.2 ++ (umlStep outdir dirFound u).2))
        acc
      = (acc.1 ++ (NeedumlsBuilder_finish outdir dirFound umls).1,
         acc.2 ++ (NeedumlsBuilder_finish outdir dirFound umls).2) := by
  induction umls generalizing acc with
  | nil => simp [NeedumlsBuilder_finish]
  | cons u rest ih =>
    simp only [NeedumlsBuilder_finish, List.foldl_cons]
    rw [ih, ih]
    simp

theorem NeedumlsBuilder_finish_cons (outdir : String) (dirFound : String → Bool)
    (u : NeedUml) (rest : List NeedUml) :
    NeedumlsBuilder_finish outdir dirFound (u :: rest)
      = ((umlStep outdir dirFound u).1 ++ (NeedumlsBuilder_finish outdir dirFound rest).1,
         (umlStep outdir dirFound u).2 ++ (NeedumlsBuilder_finish outdir dirFound rest).2) := by
  conv_lhs => rw [NeedumlsBuilder_finish]
  rw [List.foldl_cons, needumls_foldl_append]
  simp

theorem umlStep_untruthy (outdir : String) (dirFound : String → Bool)
    (u : NeedUml) (h : truthySave u.save = false) :
    umlStep outdir dirFound u = ([], []) := by
  cases hs : u.save with
  | none => simp [umlStep, hs]
  | some s =>
    rw [hs] at h
    simp only [truthySave, decide_eq_false_iff_not, not_not] at h
    simp [umlStep, hs, h]

/-- Diagram records whose `save` field is unset (or empty) contribute no
file-system action and no log line: the full run equals the run over only
the truthy-`save` records. -/
theorem needumls_skip_untruthy (outdir : String) (dirFound : String → Bool)
    (umls : List NeedUml) :
    NeedumlsBuilder_finish outdir dirFound umls
      = NeedumlsBuilder_finish outdir dirFound
          (umls.filter (fun w => truthySave w.save)) := by
  induction umls with
  | nil => rfl
  | cons u rest ih =>
    cases h : truthySave u.save with
    | true =>
      have hf : (u :: rest).filter (fun w => truthySave w.save)
          = u :: rest.filter (fun w => truthySave w.save) := by
        simp [List.filter_cons, h]
      rw [NeedumlsBuilder_finish_cons, hf, NeedumlsBuilder_finish_cons, ih]
    | false =>
      have hf : (u :: rest).filter (fun w => truthySave w.save)
          = rest.filter (fun w => truthySave w.save) := by
        simp [List.filter_cons, h]
      rw [NeedumlsBuilder_finish_cons, umlStep_untruthy outdir dirFound u h, hf, ih]
      simp

/-- Every diagram record with a truthy `save` path gets its content written
verbatim to the save path joined under the output directory, with the
destination directory created when it does not already exist. -/
theorem needumls_writes (outdir : String) (dirFound : String → Bool)
    (umls : List NeedUml) :
    ∀ u ∈ umls, ∀ s, u.save = some s → s ≠ "" →
      FsAction.write (joinPath outdir s) u.content_calculated
        ∈ (NeedumlsBuilder_finish outdir dirFound umls).1
      ∧ (dirFound (dirname (joinPath outdir s)) = false →
          FsAction.mkdirs (dirname (joinPath outdir s))
            ∈ (NeedumlsBuilder_finish outdir dirFound umls).1) := by
  induction umls with
  | nil => intro u hu; cases hu
  | cons v rest ih =>
    intro u hu s hs hns
    rw [NeedumlsBuilder_finish_cons]
    rcases List.mem_cons.mp hu with h | h
    · subst h
      refine ⟨List.mem_append_left _ ?_, fun hdf => List.mem_append_left _ ?_⟩
      · simp [umlStep, hs, hns]
      · simp [umlStep, hs, hns, hdf]
    · have hrec := ih u h s hs hns
      exact ⟨List.mem_append_right _ hrec.1,
        fun hdf => List.mem_append_right _ (hrec.2 hdf)⟩

/-- C8: a diagram record with an unset `save` field is skipped silently (it
contributes neither a file write nor a directory creation nor a log line),
while a record with `save` set has its `content_calculated` written verbatim
to the save path joined under the output directory, after recursively
creating the destination directory when it does not exist. -/
theorem uml_save_semantics (outdir : String) (dirFound : String → Bool)
    (umls : List NeedUml) :
    NeedumlsBuilder_finish outdir dirFound umls
      = NeedumlsBuilder_finish outdir dirFound
          (umls.filter (fun w => truthySave w.save))
    ∧ ∀ u ∈ umls, ∀ s, u.save = some s → s ≠ "" →
        FsAction.write (joinPath outdir s) u.content_calculated
          ∈ (NeedumlsBuilder_finish outdir dirFound umls).1
        ∧ (dirFound (dirname (joinPath outdir s)) = false →
            FsAction.mkdirs (dirname (joinPath outdir s))
              ∈ (NeedumlsBuilder_finish outdir dirFound umls).1) :=
  ⟨needumls_skip_untruthy outdir dirFound umls, needumls_writes outdir dirFound umls⟩

theorem uml_save_semantics_witness :
    (⟨some "sub/dir/out.puml", "@startuml"⟩ : NeedUml)
      ∈ [(⟨some "sub/dir/out.puml", "@startuml"⟩ : NeedUml), ⟨none, "x"⟩]
    ∧ (⟨some "sub/dir/out.puml", "@startuml"⟩ : NeedUml).save = some "sub/dir/out.puml"
    ∧ "sub/dir/out.puml" ≠ ""
    ∧ FsAction.write (joinPath "out" "sub/dir/out.puml") "@startuml"
        ∈ (NeedumlsBuilder_finish "out" (fun _ => false)
            [⟨some "sub/dir/out.puml", "@startuml"⟩, ⟨none, "x"⟩]).1
    ∧ FsAction.mkdirs (dirname (joinPath "out" "sub/dir/out.puml"))
        ∈ (NeedumlsBuilder_finish "out" (fun _ => false)
            [⟨some "sub/dir/out.puml", "@startuml"⟩, ⟨none, "x"⟩]).1 :=
  ⟨by decide, rfl, by decide,
   ((uml_save_semantics "out" (fun _ => false)
       [⟨some "sub/dir/out.puml", "@startuml"⟩, ⟨none, "x"⟩]).2
     ⟨some "sub/dir/out.puml", "@startuml"⟩ (by decide) "sub/dir/out.puml" rfl
     (by decide)).1,
   ((uml_save_semantics "out" (fun _ => false)
       [⟨some "sub/dir/out.puml", "@startuml"⟩, ⟨none, "x"⟩]).2
     ⟨some "sub/dir/out.puml", "@startuml"⟩ (by decide) "sub/dir/out.puml" rfl
     (by decide)).2 rfl⟩

/-! ## Claims about the builder base and the post-build hooks -/

/-- C3: evaluation of `NeedsBuilderBase.get_outdated_docs` on a concrete
environment: it returns the environment's full set of found documents —
every document is reported as outdated — not the empty collection. -/
theorem get_outdated_docs_reports_all_found :
    get_outdated_docs ⟨["index", "api"]⟩ = ["index", "api"]
    ∧ get_outdated_docs ⟨["index", "api"]⟩ ≠ ([] : List String) := by
  exact ⟨rfl, by simp [get_outdated_docs]⟩

/-- C9: each post-build hook does nothing when its enabling configuration
flag is falsy or when the primary builder is already an instance of the
same-purpose builder class; only otherwise does it construct the secondary
builder and invoke its `finish`. -/
theorem hooks_guarded (bj bjid : Bool) (umlSub : String) (isN isNid isU : Bool) :
    ((bj = false ∨ isN = true) → build_needs_json bj isN = .noop)
    ∧ ((bjid = false ∨ isNid = true) → build_needs_id_json bjid isNid = .noop)
    ∧ ((umlSub = "" ∨ isU = true) → build_needumls_pumls umlSub isU = .noop)
    ∧ (bj = true → isN = false → build_needs_json bj isN = .runNeedsFinish)
    ∧ (bjid = true → isNid = false → build_needs_id_json bjid isNid = .runNeedsIdFinish)
    ∧ (umlSub ≠ "" → isU = false → build_needumls_pumls umlSub isU
        = .runNeedumlsFinish umlSub) := by
  refine ⟨?_, ?_, ?_, ?_, ?_, ?_⟩
  · rintro (h | h) <;> simp [build_needs_json, h]
  · rintro (h | h) <;> simp [build_needs_id_json, h]
  · rintro (h | h) <;> simp [build_needumls_pumls, h]
  · intro h1 h2; simp [build_needs_json, h1, h2]
  · intro h1 h2; simp [build_needs_id_json, h1, h2]
  · intro h1 h2; simp [build_needumls_pumls, h1, h2]

theorem hooks_guarded_witness :
    build_needs_json false false = .noop
    ∧ build_needs_json true true = .noop
    ∧ build_needs_id_json false false = .noop
    ∧ build_needumls_pumls "" false = .noop
    ∧ build_needs_json true false = .runNeedsFinish
    ∧ build_needs_id_json true false = .runNeedsIdFinish
    ∧ build_needumls_pumls "umls" false = .runNeedumlsFinish "umls" :=
  ⟨(hooks_guarded false false "" false false false).1 (Or.inl rfl),
   (hooks_guarded true false "" true false false).1 (Or.inr rfl),
   (hooks_guarded true false "" false false false).2.1 (Or.inl rfl),
   (hooks_guarded true false "" false false false).2.2.1 (Or.inl rfl),
   (hooks_guarded true true "" false false false).2.2.2.1 rfl rfl,
   (hooks_guarded true true "" false false false).2.2.2.2.1 rfl rfl,
   (hooks_guarded true true "umls" false false false).2.2.2.2.2 (by decide) rfl⟩

/-- C10: the JSON needs exporter overrides `skip_write_phase` to `False`, so
its `write` delegates to the host's full per-document write phase, while the
base class and the other two concrete builders keep the default `True`,
making their `write` a no-op. -/
theorem skip_write_phase_overridden :
    NeedsBuilder.skip_write_phase = false
    ∧ builderWrite NeedsBuilder.skip_write_phase = .delegatedToHost
    ∧ NeedsBuilderBase.skip_write_phase = true
    ∧ NeedumlsBuilder.skip_write_phase = NeedsBuilderBase.skip_write_phase
    ∧ NeedsIdBuilder.skip_write_phase = NeedsBuilderBase.skip_write_phase
    ∧ builderWrite NeedsBuilderBase.skip_write_phase = .skipped
    ∧ builderWrite NeedumlsBuilder.skip_write_phase = .skipped
    ∧ builderWrite NeedsIdBuilder.skip_write_phase = .skipped := by
  decide
